import Mathlib

/-!
# FileScoreController (userscores/internal/filescorecontroller.cpp)

A shallow embedding of the controller that opens, saves and closes scores.
The controller is sequencing code over injected services (dispatcher, global
context, configuration, interactive dialogs, notation creator, multi-instance
provider).  The embedding uses explicit state passing:

* `State` holds what the services store (the global context's master
  notations, the configuration's recent-score list and warning flag) and a
  `trace`, the ordered list of every call the controller makes on a service;
* `Env` holds what the outside world answers (results of `load` and `save`,
  the buttons the user presses, the files the user picks) and the constants and
  helpers declared in headers that are not part of the sources at hand.

Master notation objects are shared pointers in the source.  Here a master
notation is the value of what the controller can observe of the object; `load`
and `save` return the object as they leave it, and the controller's current
master notation is updated with it.  The null pointer is `none`, and a method
that dereferences a null pointer has no result (`none`).
-/

namespace FileScoreController

/-! ## Data model -/

/-- An `io::path`; `empty()` is emptiness of the underlying string. -/
abbrev Path := String

/-- A `mu::Ret`: an integer code and a text. -/
structure Ret where
  code : Int
  text : String
deriving DecidableEq, Repr

/-- The integer values of the `Ret::Code` and `notation::Err` enumerators the
controller names (`ret.h` and `notationerrors.h` are not among the sources, so
the values are parameters). -/
structure Codes where
  Ok : Int
  InternalError : Int
  FileTooOld : Int
  FileTooNew : Int
  FileCorrupted : Int
  FileOld300Format : Int
deriving DecidableEq, Repr

/-- The `notation::SaveMode` enumeration. -/
inductive SaveMode where
  | Save
  | SaveAs
  | SaveCopy
  | SaveSelection
deriving DecidableEq, Repr

/-- The `IInteractive::Button` enumeration: the five buttons the controller
names, and `Other` for every further enumerator. -/
inductive Button where
  | Ok
  | Cancel
  | Ignore
  | DontSave
  | Save
  | Other (id : Nat)
deriving DecidableEq, Repr

/-- The `IInteractive::Option` flags the controller uses. -/
inductive DialogOption where
  | WithIcon
  | WithShowAgain
deriving DecidableEq, Repr

/-- An `IInteractive::Result`: the pressed button and the show-again box. -/
structure DialogResult where
  standartButton : Button
  showAgain : Bool
deriving DecidableEq, Repr

/-- The fields of `Meta` the controller reads. -/
structure Meta where
  title : String
  fileName : String
  filePath : Path
  source : String
deriving DecidableEq, Repr

/-- What the controller observes of a master notation object
(`path()`, `needSave().val`, `created().val`, `metaInfo()`). -/
structure MasterNotation where
  path : Path
  needSave : Bool
  created : Bool
  metaInfo : Meta
deriving DecidableEq, Repr

/-- The handlers `init` binds to command names. -/
inductive Handler where
  | openScore
  | newScore
  | closeOpenedScore
  | saveScore
  | saveScoreAs
  | saveScoreCopy
  | saveSelection
  | saveOnline
  | exportScore
  | importPdf
  | clearRecentScores
  | continueLastSession
deriving DecidableEq, Repr

/-- One call the controller makes on an injected service or on the log. -/
inductive Event where
  | activateWindowWithScore (path : Path)
  | assertFailed
  | load (path : Path) (stylePath : Path) (forceMode : Bool) (ret : Ret)
  | save (path : Path) (saveMode : SaveMode) (ret : Ret)
  | errorDialog (title body : String) (buttons : List Button) (defBtn : Button)
      (options : List DialogOption)
  | warningDialog (title body : String) (buttons : List Button) (defBtn : Button)
      (options : List DialogOption)
  | selectOpeningFile (title : String) (dir : Path) (filter : String)
  | selectSavingFile (title : String) (dir : Path) (filter : String)
  | openUri (uri : String)
  | logE (ret : Ret)
  | addMasterNotation (master : MasterNotation)
  | setCurrentMasterNotation (master : Option MasterNotation)
  | currentMasterNotationChangedNotify
  | setRecentScorePaths (paths : List Path)
  | addRecentFile (path : Path)
  | clearRecentFiles
  | setNeedShowWarningAboutUnsavedScore (value : Bool)
deriving DecidableEq, Repr

/-- The answers of the world outside the controller, and the helpers and
constants whose definitions are in headers outside the sources at hand. -/
structure Env where
  codes : Codes
  /-- The text `make_ret` attaches to a code. -/
  codeText : Int → String
  /-- Translation of a message in a context (`trc`, `qtrc`). -/
  trc : String → String → String
  /-- Translation by `QObject::tr`. -/
  tr : String → String
  /-- Substitution of the lowest numbered place marker (`QString::arg`). -/
  arg : String → String → String
  /-- The helper `io::completebasename`. -/
  completebasename : Path → String
  /-- The helper `io::syffix`. -/
  syffix : Path → String
  /-- The constant `UserScoresConfiguration::DEFAULT_FILE_SUFFIX`. -/
  DEFAULT_FILE_SUFFIX : String
  /-- The call `configuration()->defaultSavingFilePath(fileName)`. -/
  configDefaultSavingFilePath : Path → Path
  /-- The call `multiInstancesProvider()->isScoreAlreadyOpened(path)`. -/
  isScoreAlreadyOpened : Path → Bool
  /-- The call `notationCreator()->newMasterNotation()`; `none` is the null pointer. -/
  newMasterNotation : Option MasterNotation
  /-- The call `master->load(path, stylePath, forceMode)`: the result and the
  object afterwards. -/
  load : MasterNotation → Path → Path → Bool → Ret × MasterNotation
  /-- The call `master->save(path, saveMode)`: the result and the object
  afterwards. -/
  save : MasterNotation → Path → SaveMode → Ret × MasterNotation
  /-- The call `globalContext()->containsMasterNotation(path)` on the stored list. -/
  containsMasterNotation : List MasterNotation → Path → Bool
  /-- The answer of the user to `interactive()->warning(...)`. -/
  warning : String → String → List Button → Button → List DialogOption → DialogResult
  /-- The answer of the user to `interactive()->error(...)`. -/
  error : String → String → List Button → Button → List DialogOption → DialogResult
  /-- The file the user picks in `interactive()->selectOpeningFile(...)`. -/
  selectOpeningFile : String → Path → String → Path
  /-- The file the user picks in `interactive()->selectSavingFile(...)`. -/
  selectSavingFile : String → Path → String → Path

/-- What the injected services store, and the trace of calls made on them. -/
structure State where
  /-- The master notations of the global context. -/
  masterNotations : List MasterNotation
  /-- The value of `globalContext()->currentMasterNotation()`; `none` is the null
  pointer. -/
  currentMasterNotation : Option MasterNotation
  /-- The value of `configuration()->recentScorePaths().val`. -/
  recentScorePaths : List Path
  /-- The value of `configuration()->needShowWarningAboutUnsavedScore()`. -/
  needShowWarningAboutUnsavedScore : Bool
  /-- Every service call so far, oldest first. -/
  trace : List Event
deriving DecidableEq, Repr

/-- Record a service call at the end of the trace. -/
def State.emit (s : State) (e : Event) : State :=
  { s with trace := s.trace ++ [e] }

/-- The service calls made between state `s` and a later state `t`. -/
def emitted (s t : State) : List Event :=
  t.trace.drop s.trace.length

/-- Modelled from the spec: the boolean conversion of `Ret` (`ret.h` is not
among the sources).  "Errors are represented as a result/code value checked by
the caller": a `Ret` is a success exactly when its code is `Ret::Code::Ok`. -/
def success (env : Env) (ret : Ret) : Bool :=
  ret.code == env.codes.Ok

/-- The helper `make_ret(code)`: a `Ret` of that code with the code's text. -/
def make_ret (env : Env) (code : Int) : Ret :=
  { code := code, text := env.codeText code }

/-! ## init -/

/-- The dispatcher's registrations, oldest first. -/
abbrev Dispatcher := List (String × Handler)

/-- The call `dispatcher()->reg(this, name, handler)`. -/
def Dispatcher.reg (d : Dispatcher) (name : String) (h : Handler) : Dispatcher :=
  d ++ [(name, h)]

/-- The method `FileScoreController::init`. -/
def init (d : Dispatcher) : Dispatcher :=
  let d := d.reg "file-open" Handler.openScore
  let d := d.reg "file-new" Handler.newScore
  let d := d.reg "file-close" Handler.closeOpenedScore
  let d := d.reg "file-save" Handler.saveScore
  let d := d.reg "file-save-as" Handler.saveScoreAs
  let d := d.reg "file-save-a-copy" Handler.saveScoreCopy
  let d := d.reg "file-save-selection" Handler.saveSelection
  let d := d.reg "file-save-online" Handler.saveOnline
  let d := d.reg "file-export" Handler.exportScore
  let d := d.reg "file-import-pdf" Handler.importPdf
  let d := d.reg "clear-recent" Handler.clearRecentScores
  let d := d.reg "continue-last-session" Handler.continueLastSession
  d

/-- The command names registered in a dispatcher, in registration order. -/
def registeredNames (d : Dispatcher) : List String :=
  d.map Prod.fst

/-! ## checkCanIgnoreError -/

/-- The list `ignorableErrors` of `checkCanIgnoreError`. -/
def ignorableErrors (env : Env) : List Int :=
  [env.codes.FileTooOld, env.codes.FileTooNew, env.codes.FileCorrupted,
   env.codes.FileOld300Format]

/-- The dialog title built in `checkCanIgnoreError`. -/
def openErrorTitle (env : Env) : String :=
  env.trc "userscores" "Open Error"

/-- The dialog body built in `checkCanIgnoreError`. -/
def openErrorBody (env : Env) (ret : Ret) (filePath : Path) : String :=
  env.arg (env.arg (env.trc "userscores" "Cannot open file %1:\n%2") filePath) ret.text

/-- The method `FileScoreController::checkCanIgnoreError`. -/
def checkCanIgnoreError (env : Env) (s : State) (ret : Ret) (filePath : Path) :
    Bool × State :=
  let title := openErrorTitle env
  let body := openErrorBody env ret filePath
  let options := [DialogOption.WithIcon]
  let canIgnore := (ignorableErrors env).contains ret.code
  if !canIgnore then
    (false, s.emit (Event.errorDialog title body [Button.Ok] Button.Ok options))
  else
    let result := env.warning title body [Button.Cancel, Button.Ignore] Button.Ignore options
    (result.standartButton == Button.Ignore,
     s.emit (Event.warningDialog title body [Button.Cancel, Button.Ignore] Button.Ignore
       options))

/-! ## The recent-score list -/

/-- The call `std::find(begin, end, value)`: the position of the first element
equal to `value`, or `none` for `end`. -/
def find : List Path → Path → Option Nat
  | [], _ => none
  | x :: xs, value => if x == value then some 0 else (find xs value).map (· + 1)

/-- The method `FileScoreController::prependToRecentScoreList`. -/
def prependToRecentScoreList (s : State) (filePath : Path) : State :=
  if filePath.isEmpty then
    s
  else
    let recentScorePaths := s.recentScorePaths
    let recentScorePaths :=
      match find recentScorePaths filePath with
      | some it => recentScorePaths.eraseIdx it
      | none => recentScorePaths
    let recentScorePaths := filePath :: recentScorePaths
    let s := { s with recentScorePaths := recentScorePaths }
    let s := s.emit (Event.setRecentScorePaths recentScorePaths)
    s.emit (Event.addRecentFile filePath)

/-- The method `FileScoreController::clearRecentScores`. -/
def clearRecentScores (s : State) : State :=
  let s := { s with recentScorePaths := [] }
  let s := s.emit (Event.setRecentScorePaths [])
  s.emit Event.clearRecentFiles

/-! ## Opening a score -/

/-- The method `FileScoreController::doOpenScore`.  The default style path of
`load` is the empty path and its default force mode is `false`
(masternotation.h); `TRACEFUNC` only profiles; `IF_ASSERT_FAILED(notation)`
reports the null pointer and guards the return of InternalError. -/
def doOpenScore (env : Env) (s : State) (filePath : Path) : Ret × State :=
  if env.isScoreAlreadyOpened filePath then
    (make_ret env env.codes.Ok, s.emit (Event.activateWindowWithScore filePath))
  else
    match env.newMasterNotation with
    | none => (make_ret env env.codes.InternalError, s.emit Event.assertFailed)
    | some created =>
      let first := env.load created filePath "" false
      let s := s.emit (Event.load filePath "" false first.1)
      let loaded : Ret × MasterNotation × State :=
        if !success env first.1 then
          let chk := checkCanIgnoreError env s first.1 filePath
          if chk.1 then
            let second := env.load first.2 filePath "" true
            (second.1, second.2, chk.2.emit (Event.load filePath "" true second.1))
          else
            (first.1, first.2, chk.2)
        else
          (first.1, first.2, s)
      let ret := loaded.1
      let master := loaded.2.1
      let s := loaded.2.2
      if !success env ret then
        (ret, s)
      else
        let s :=
          if !env.containsMasterNotation s.masterNotations filePath then
            { s with masterNotations := s.masterNotations ++ [master] }.emit
              (Event.addMasterNotation master)
          else s
        let s := { s with currentMasterNotation := some master }.emit
          (Event.setCurrentMasterNotation (some master))
        let s := prependToRecentScoreList s filePath
        let s := s.emit (Event.openUri "musescore://notation")
        (make_ret env env.codes.Ok, s)

/-- The filter list of `selectScoreOpeningFile` after the first entry: the
translated name and the pattern string of each format-specific filter. -/
def formatFilters : List (String × String) :=
  [("MuseScore File", "*.mscz"),
   ("MusicXML Files", "*.mxl *.musicxml *.xml"),
   ("MIDI Files", "*.mid *.midi *.kar"),
   ("MuseData Files", "*.md"),
   ("Capella Files", "*.cap *.capx"),
   ("BB Files (experimental)", "*.mgu *.sgu"),
   ("Overture / Score Writer Files (experimental)", "*.ove *.scw"),
   ("Bagpipe Music Writer Files (experimental)", "*.bmw *.bww"),
   ("Guitar Pro Files", "*.gtp *.gp3 *.gp4 *.gp5 *.gpx *.gp"),
   ("Power Tab Editor Files (experimental)", "*.ptb"),
   ("MuseScore Backup Files", "*.mscz,")]

/-- The string `allExt` of `selectScoreOpeningFile`: two adjacent string
literals, which the compiler concatenates. -/
def allExt : String :=
  "*.mscz *.mxl *.musicxml *.xml *.mid *.midi *.kar *.md *.mgu *.sgu *.cap *.capx" ++
  "*.ove *.scw *.bmw *.bww *.gtp *.gp3 *.gp4 *.gp5 *.gpx *.gp *.ptb *.mscz,"

/-- One entry of the filter list: the translated name, then the pattern string
in parentheses. -/
def filterEntry (env : Env) (name pats : String) : String :=
  env.tr name ++ " (" ++ pats ++ ")"

/-- The list `filter` built in `selectScoreOpeningFile`. -/
def openingFilter (env : Env) : List String :=
  filterEntry env "All Supported Files" allExt ::
    formatFilters.map (fun e => filterEntry env e.1 e.2)

/-- The method `FileScoreController::selectScoreOpeningFile`. -/
def selectScoreOpeningFile (env : Env) (s : State) : Path × State :=
  let title := env.trc "userscores" "Score"
  let filter := ";;".intercalate (openingFilter env)
  (env.selectOpeningFile title "" filter, s.emit (Event.selectOpeningFile title "" filter))

/-- Splitting of a pattern string at white space: `cur` is the pattern being
read, last character first. -/
def wordsAux : List Char → List Char → List String
  | [], cur => if cur.isEmpty then [] else [String.mk cur.reverse]
  | c :: cs, cur =>
    if c.isWhitespace then
      if cur.isEmpty then wordsAux cs [] else String.mk cur.reverse :: wordsAux cs []
    else wordsAux cs (c :: cur)

/-- The whitespace-separated patterns of a pattern string. -/
def patterns (pats : String) : List String :=
  wordsAux pats.toList []

/-- Every pattern of every format-specific filter. -/
def formatPatterns : List String :=
  formatFilters.flatMap (fun e => patterns e.2)

/-! ## Saving and closing -/

/-- The method `FileScoreController::defaultSavingFilePath`, on the current
master notation `master`. -/
def defaultSavingFilePath (env : Env) (master : MasterNotation) : Path :=
  let scoreMetaInfo := master.metaInfo
  let fileName := scoreMetaInfo.title
  let fileName := if fileName.isEmpty then scoreMetaInfo.fileName else fileName
  env.configDefaultSavingFilePath fileName

/-- The method `FileScoreController::selectScoreSavingFile`. -/
def selectScoreSavingFile (env : Env) (s : State) (defaultFilePath : Path)
    (saveTitle : String) : Path × State :=
  let filter := env.tr "MuseScore File" ++ " (*.mscz)"
  let filePath := env.selectSavingFile saveTitle defaultFilePath filter
  (filePath, s.emit (Event.selectSavingFile saveTitle defaultFilePath filter))

/-- The method `FileScoreController::doSaveScore`.  The result is `none` when
the current master notation is the null pointer, which the method
dereferences.  The save acts on the current master notation object, whose
state afterwards is the one `save` leaves. -/
def doSaveScore (env : Env) (s : State) (filePath : Path) (saveMode : SaveMode) :
    Option State :=
  match s.currentMasterNotation with
  | none => none
  | some master =>
    let oldPath := master.metaInfo.filePath
    let saved := env.save master filePath saveMode
    let s := { s with currentMasterNotation := some saved.2 }
    let s := s.emit (Event.save filePath saveMode saved.1)
    if !success env saved.1 then
      some (s.emit (Event.logE saved.1))
    else
      let s :=
        if saveMode == SaveMode.SaveAs && oldPath != filePath then
          s.emit Event.currentMasterNotationChangedNotify
        else s
      some (prependToRecentScoreList s filePath)

/-- The method `FileScoreController::saveScore`; `doSaveScore()` is the call
with the default arguments, the empty path and `SaveMode::Save`. -/
def saveScore (env : Env) (s : State) : Option State :=
  match s.currentMasterNotation with
  | none => none
  | some master =>
    if !master.created then
      doSaveScore env s "" SaveMode.Save
    else
      let defaultFilePath := defaultSavingFilePath env master
      let sel := selectScoreSavingFile env s defaultFilePath (env.trc "userscores" "Save Score")
      let filePath := sel.1
      if filePath.isEmpty then
        some sel.2
      else
        let filePath :=
          if (env.syffix filePath).isEmpty then filePath ++ env.DEFAULT_FILE_SUFFIX
          else filePath
        doSaveScore env sel.2 filePath SaveMode.Save

/-- The method `FileScoreController::saveScoreAs`. -/
def saveScoreAs (env : Env) (s : State) : Option State :=
  match s.currentMasterNotation with
  | none => none
  | some master =>
    let defaultFilePath := defaultSavingFilePath env master
    let sel := selectScoreSavingFile env s defaultFilePath (env.trc "userscores" "Save Score")
    if sel.1.isEmpty then some sel.2
    else doSaveScore env sel.2 sel.1 SaveMode.SaveAs

/-- The method `FileScoreController::saveScoreCopy`. -/
def saveScoreCopy (env : Env) (s : State) : Option State :=
  match s.currentMasterNotation with
  | none => none
  | some master =>
    let defaultFilePath := defaultSavingFilePath env master
    let sel := selectScoreSavingFile env s defaultFilePath (env.trc "userscores" "Save a Copy")
    if sel.1.isEmpty then some sel.2
    else doSaveScore env sel.2 sel.1 SaveMode.SaveCopy

/-- The method `FileScoreController::saveSelection`. -/
def saveSelection (env : Env) (s : State) : Option State :=
  match s.currentMasterNotation with
  | none => none
  | some master =>
    let defaultFilePath := defaultSavingFilePath env master
    let sel := selectScoreSavingFile env s defaultFilePath
      (env.trc "userscores" "Save Selection")
    let selectedFilePath := sel.1
    let s := sel.2
    if selectedFilePath.isEmpty then some s
    else
      let saved := env.save master selectedFilePath SaveMode.SaveSelection
      let s := { s with currentMasterNotation := some saved.2 }
      let s := s.emit (Event.save selectedFilePath SaveMode.SaveSelection saved.1)
      if !success env saved.1 then some (s.emit (Event.logE saved.1)) else some s

/-- The method `FileScoreController::askAboutSavingScore`. -/
def askAboutSavingScore (env : Env) (s : State) (filePath : Path) : Button × State :=
  if !s.needShowWarningAboutUnsavedScore then
    (Button.DontSave, s)
  else
    let title := env.arg
      (env.trc "userscores" "Do you want to save changes to the score “%1” before closing?")
      (env.completebasename filePath)
    let body := env.trc "userscores" "Your changes will be lost if you don’t save them."
    let options := [DialogOption.WithIcon, DialogOption.WithShowAgain]
    let buttons := [Button.DontSave, Button.Cancel, Button.Save]
    let result := env.warning title body buttons Button.Save options
    let s := s.emit (Event.warningDialog title body buttons Button.Save options)
    let s := { s with needShowWarningAboutUnsavedScore := result.showAgain }.emit
      (Event.setNeedShowWarningAboutUnsavedScore result.showAgain)
    (result.standartButton, s)

/-- The call `globalContext()->setCurrentMasterNotation(nullptr)`. -/
def resetCurrentMasterNotation (s : State) : State :=
  { s with currentMasterNotation := none }.emit (Event.setCurrentMasterNotation none)

/-- The method `FileScoreController::closeOpenedScore`.  The result is `none`
only if the nested `saveScore` dereferences a null current master notation. -/
def closeOpenedScore (env : Env) (s : State) : Option (Bool × State) :=
  match s.currentMasterNotation with
  | none => some (true, s)
  | some master =>
    if master.needSave then
      let asked := askAboutSavingScore env s master.path
      let btn := asked.1
      if btn == Button.Cancel then
        some (false, asked.2)
      else if btn == Button.Save then
        (saveScore env asked.2).map (fun s => (true, resetCurrentMasterNotation s))
      else
        some (true, resetCurrentMasterNotation asked.2)
    else
      some (true, resetCurrentMasterNotation s)

/-! ## Trace queries -/

/-- The `load` calls of a list of events: path, style path, force mode and
result of each, in order. -/
def loadCalls : List Event → List (Path × Path × Bool × Ret)
  | [] => []
  | Event.load p st f r :: es => (p, st, f, r) :: loadCalls es
  | _ :: es => loadCalls es

/-- Whether an event is a dialog of any kind shown to the user. -/
def Event.isDialog : Event → Bool
  | Event.errorDialog _ _ _ _ _ => true
  | Event.warningDialog _ _ _ _ _ => true
  | _ => false

/-- Whether an event writes the recent-score list or the platform list. -/
def Event.isRecentWrite : Event → Bool
  | Event.setRecentScorePaths _ => true
  | Event.addRecentFile _ => true
  | Event.clearRecentFiles => true
  | _ => false

/-! ## Names for the steps of doOpenScore -/

/-- The first `load` of `doOpenScore`: the default style path, no force
mode. -/
def firstLoad (env : Env) (created : MasterNotation) (filePath : Path) :
    Ret × MasterNotation :=
  env.load created filePath "" false

/-- The state of `doOpenScore` after its first `load`. -/
def afterFirstLoad (env : Env) (s : State) (created : MasterNotation) (filePath : Path) :
    State :=
  s.emit (Event.load filePath "" false (firstLoad env created filePath).1)

/-- The second `load` of `doOpenScore`: `NO_STYLE` and `FORCE_MODE`, on the
object the first `load` left. -/
def secondLoad (env : Env) (created : MasterNotation) (filePath : Path) :
    Ret × MasterNotation :=
  env.load (firstLoad env created filePath).2 filePath "" true

/-- Whether the user presses Ignore in the warning dialog of
`checkCanIgnoreError`. -/
def userIgnores (env : Env) (ret : Ret) (filePath : Path) : Bool :=
  (env.warning (openErrorTitle env) (openErrorBody env ret filePath)
    [Button.Cancel, Button.Ignore] Button.Ignore
    [DialogOption.WithIcon]).standartButton == Button.Ignore

/-- The last lines of `doOpenScore`, after a successful load of `master`. -/
def openLoaded (env : Env) (s : State) (master : MasterNotation) (filePath : Path) :
    State :=
  let s :=
    if !env.containsMasterNotation s.masterNotations filePath then
      { s with masterNotations := s.masterNotations ++ [master] }.emit
        (Event.addMasterNotation master)
    else s
  let s := { s with currentMasterNotation := some master }.emit
    (Event.setCurrentMasterNotation (some master))
  let s := prependToRecentScoreList s filePath
  s.emit (Event.openUri "musescore://notation")

/-! ## Sample data for the concrete instances -/

/-- Sample enumerator values. -/
def sampleCodes : Codes :=
  { Ok := 0, InternalError := 2, FileTooOld := 2007, FileTooNew := 2008,
    FileCorrupted := 2010, FileOld300Format := 2009 }

/-- A sample master notation: an unsaved, modified score. -/
def sampleMaster : MasterNotation :=
  { path := "old.mscz", needSave := true, created := false,
    metaInfo := { title := "Old", fileName := "old", filePath := "old.mscz", source := "" } }

/-- A sample world: every load and save fails with the given code, the user
presses the given button in every warning dialog and picks no file. -/
def sampleEnv (failCode : Int) (btn : Button) (created : Option MasterNotation) : Env :=
  { codes := sampleCodes
    codeText := fun _ => ""
    trc := fun _ msg => msg
    tr := fun msg => msg
    arg := fun fmt a => fmt ++ a
    completebasename := fun p => p
    syffix := fun _ => "mscz"
    DEFAULT_FILE_SUFFIX := ".mscz"
    configDefaultSavingFilePath := fun p => p
    isScoreAlreadyOpened := fun _ => false
    newMasterNotation := created
    load := fun m _ _ _ => ({ code := failCode, text := "load" }, m)
    save := fun m _ _ => ({ code := failCode, text := "save" }, m)
    containsMasterNotation := fun l p => l.any (fun m => m.path == p)
    warning := fun _ _ _ _ _ => { standartButton := btn, showAgain := true }
    error := fun _ _ _ _ _ => { standartButton := Button.Ok, showAgain := true }
    selectOpeningFile := fun _ _ _ => ""
    selectSavingFile := fun _ _ _ => "" }

/-- A sample state: one open score and two recent paths. -/
def sampleState : State :=
  { masterNotations := [sampleMaster]
    currentMasterNotation := some sampleMaster
    recentScorePaths := ["a.mscz", "b.mscz"]
    needShowWarningAboutUnsavedScore := true
    trace := [] }

/-- A sample world for the forced reload: the first load fails with
FileTooNew (2008), the user presses Ignore, and the load in force mode fails
with the non-ignorable code 5. -/
def sampleReloadEnv : Env :=
  { sampleEnv 2008 Button.Ignore (some sampleMaster) with
    load := fun m _ _ forceMode =>
      if forceMode then ({ code := 5, text := "forced" }, m)
      else ({ code := 2008, text := "load" }, m) }

/-- The eleven command names the specification lists. -/
def specCommandNames : List String :=
  ["file-open", "file-new", "file-save", "file-save-as", "file-save-a-copy",
   "file-save-selection", "file-save-online", "file-export", "file-import-pdf",
   "clear-recent", "continue-last-session"]

/-- The dialog `checkCanIgnoreError` shows for a result and a path. -/
def openErrorDialog (env : Env) (ret : Ret) (filePath : Path) : Event :=
  if (ignorableErrors env).contains ret.code then
    Event.warningDialog (openErrorTitle env) (openErrorBody env ret filePath)
      [Button.Cancel, Button.Ignore] Button.Ignore [DialogOption.WithIcon]
  else
    Event.errorDialog (openErrorTitle env) (openErrorBody env ret filePath)
      [Button.Ok] Button.Ok [DialogOption.WithIcon]

/-- The service calls of the last lines of `doOpenScore`. -/
def openLoadedEvents (env : Env) (s : State) (master : MasterNotation) (filePath : Path) :
    List Event :=
  (if env.containsMasterNotation s.masterNotations filePath then []
    else [Event.addMasterNotation master]) ++
  [Event.setCurrentMasterNotation (some master)] ++
  (if filePath = "" then []
    else [Event.setRecentScorePaths (filePath :: s.recentScorePaths.erase filePath),
      Event.addRecentFile filePath]) ++
  [Event.openUri "musescore://notation"]

/-- Whether an event changes what the global context or the configuration
stores, or opens a page. -/
def Event.isStateChange : Event → Bool
  | Event.addMasterNotation _ => true
  | Event.setCurrentMasterNotation _ => true
  | Event.setRecentScorePaths _ => true
  | Event.addRecentFile _ => true
  | Event.clearRecentFiles => true
  | Event.openUri _ => true
  | Event.currentMasterNotationChangedNotify => true
  | _ => false

/-- The states reachable from an empty recent-score list through
`doOpenScore`, `doSaveScore` and `clearRecentScores`, in any world and with any
arguments. -/
inductive Reachable : State → Prop where
  | start (s : State) (h : s.recentScorePaths = []) : Reachable s
  | openScore (env : Env) (s : State) (p : Path) (h : Reachable s) :
      Reachable (doOpenScore env s p).2
  | saveScore (env : Env) (s t : State) (p : Path) (mode : SaveMode) (h : Reachable s)
      (hs : doSaveScore env s p mode = some t) : Reachable t
  | clear (s : State) (h : Reachable s) : Reachable (clearRecentScores s)

/-! ## Lemmas on the recent-score list -/

/-- Erasing at the position `std::find` returns is erasing the first
occurrence. -/
theorem find_eraseIdx (l : List Path) (p : Path) :
    (match find l p with
      | some it => l.eraseIdx it
      | none => l) = l.erase p := by
  induction l with
  | nil => rfl
  | cons x xs ih =>
    by_cases h : x = p
    · subst h
      simp [find]
    · have hb : (x == p) = false := by simpa using h
      have he : (x :: xs).erase p = x :: xs.erase p :=
        List.erase_cons_tail (by simp [hb])
      rw [he, ← ih]
      simp only [find, hb, Bool.false_eq_true, if_false]
      cases hf : find xs p with
      | none => rfl
      | some i => rfl

/-- The state `prependToRecentScoreList` leaves for a non-empty path. -/
theorem prependToRecentScoreList_eq (s : State) (p : Path) (hp : p ≠ "") :
    prependToRecentScoreList s p =
      { s with
        recentScorePaths := p :: s.recentScorePaths.erase p
        trace := s.trace ++ [Event.setRecentScorePaths (p :: s.recentScorePaths.erase p),
          Event.addRecentFile p] } := by
  have he : p.isEmpty = false := by
    cases h : p.isEmpty with
    | false => rfl
    | true => exact absurd ((String.isEmpty_iff p).1 h) hp
  simp [prependToRecentScoreList, he, find_eraseIdx, State.emit]

/-- The empty path leaves the state as it is. -/
theorem prependToRecentScoreList_empty (s : State) :
    prependToRecentScoreList s "" = s := by
  simp [prependToRecentScoreList, String.isEmpty_iff]

/-- The list `prependToRecentScoreList` stores, for every path. -/
theorem prependToRecentScoreList_paths (s : State) (p : Path) :
    (prependToRecentScoreList s p).recentScorePaths =
      if p = "" then s.recentScorePaths else p :: s.recentScorePaths.erase p := by
  by_cases hp : p = ""
  · subst hp
    simp [prependToRecentScoreList_empty]
  · simp [prependToRecentScoreList_eq s p hp, hp]

/-- Erasing the first occurrence of `p` keeps the entries other than `p`. -/
theorem filter_ne_erase (l : List Path) (p : Path) :
    (l.erase p).filter (fun q => q != p) = l.filter (fun q => q != p) := by
  induction l with
  | nil => rfl
  | cons x xs ih =>
    by_cases h : x = p
    · subst h
      simp
    · have hb : (x == p) = false := by simpa using h
      have he : (x :: xs).erase p = x :: xs.erase p :=
        List.erase_cons_tail (by simp [hb])
      simp [he, h, ih]

/-- The stored list stays duplicate-free under `prependToRecentScoreList`. -/
theorem prependToRecentScoreList_nodup (s : State) (p : Path)
    (h : s.recentScorePaths.Nodup) :
    (prependToRecentScoreList s p).recentScorePaths.Nodup := by
  rw [prependToRecentScoreList_paths]
  split
  · exact h
  · exact List.nodup_cons.2 ⟨fun hm => (List.Nodup.mem_erase_iff h).1 hm |>.1 rfl,
      h.erase p⟩

/-- The calls emitted between a state and itself. -/
theorem emitted_self (s : State) : emitted s s = [] := by
  simp [emitted]

/-- The calls emitted up to a state whose trace extends the old one. -/
theorem emitted_of_trace (s t : State) (es : List Event) (h : t.trace = s.trace ++ es) :
    emitted s t = es := by
  simp [emitted, h]

/-! ## The paths through doOpenScore -/

/-- The result of `checkCanIgnoreError`, in one equation. -/
theorem checkCanIgnoreError_eq (env : Env) (s : State) (ret : Ret) (filePath : Path) :
    checkCanIgnoreError env s ret filePath =
      if (ignorableErrors env).contains ret.code then
        (userIgnores env ret filePath,
         s.emit (Event.warningDialog (openErrorTitle env) (openErrorBody env ret filePath)
          [Button.Cancel, Button.Ignore] Button.Ignore [DialogOption.WithIcon]))
      else
        (false,
         s.emit (Event.errorDialog (openErrorTitle env) (openErrorBody env ret filePath)
          [Button.Ok] Button.Ok [DialogOption.WithIcon])) := by
  by_cases h : ret.code ∈ ignorableErrors env <;>
    simp [checkCanIgnoreError, userIgnores, h]

/-- The score is already opened in another instance. -/
theorem doOpenScore_alreadyOpened (env : Env) (s : State) (p : Path)
    (ho : env.isScoreAlreadyOpened p = true) :
    doOpenScore env s p =
      (make_ret env env.codes.Ok, s.emit (Event.activateWindowWithScore p)) := by
  simp [doOpenScore, ho]

/-- The notation creator returns the null pointer. -/
theorem doOpenScore_noMaster (env : Env) (s : State) (p : Path)
    (ho : env.isScoreAlreadyOpened p = false) (hn : env.newMasterNotation = none) :
    doOpenScore env s p =
      (make_ret env env.codes.InternalError, s.emit Event.assertFailed) := by
  simp [doOpenScore, ho, hn]

/-- The first load succeeds. -/
theorem doOpenScore_firstOk (env : Env) (s : State) (p : Path) (m : MasterNotation)
    (ho : env.isScoreAlreadyOpened p = false) (hn : env.newMasterNotation = some m)
    (h1 : success env (firstLoad env m p).1 = true) :
    doOpenScore env s p =
      (make_ret env env.codes.Ok,
       openLoaded env (afterFirstLoad env s m p) (firstLoad env m p).2 p) := by
  simp only [firstLoad] at h1
  simp [doOpenScore, ho, hn, h1, openLoaded, afterFirstLoad, firstLoad]

/-- The first load fails and the error is not ignored. -/
theorem doOpenScore_firstFails (env : Env) (s : State) (p : Path) (m : MasterNotation)
    (ho : env.isScoreAlreadyOpened p = false) (hn : env.newMasterNotation = some m)
    (h1 : success env (firstLoad env m p).1 = false)
    (hc : (checkCanIgnoreError env (afterFirstLoad env s m p) (firstLoad env m p).1 p).1
      = false) :
    doOpenScore env s p =
      ((firstLoad env m p).1,
       (checkCanIgnoreError env (afterFirstLoad env s m p) (firstLoad env m p).1 p).2) := by
  simp only [firstLoad, afterFirstLoad] at h1 hc
  simp [doOpenScore, ho, hn, h1, hc, afterFirstLoad, firstLoad]

/-- The first load fails, the error is ignored and the forced reload fails. -/
theorem doOpenScore_secondFails (env : Env) (s : State) (p : Path) (m : MasterNotation)
    (ho : env.isScoreAlreadyOpened p = false) (hn : env.newMasterNotation = some m)
    (h1 : success env (firstLoad env m p).1 = false)
    (hc : (checkCanIgnoreError env (afterFirstLoad env s m p) (firstLoad env m p).1 p).1
      = true)
    (h2 : success env (secondLoad env m p).1 = false) :
    doOpenScore env s p =
      ((secondLoad env m p).1,
       (checkCanIgnoreError env (afterFirstLoad env s m p) (firstLoad env m p).1 p).2.emit
         (Event.load p "" true (secondLoad env m p).1)) := by
  simp only [firstLoad, afterFirstLoad, secondLoad] at h1 hc h2
  simp [doOpenScore, ho, hn, h1, hc, h2, afterFirstLoad, firstLoad, secondLoad]

/-- The first load fails, the error is ignored and the forced reload
succeeds. -/
theorem doOpenScore_secondOk (env : Env) (s : State) (p : Path) (m : MasterNotation)
    (ho : env.isScoreAlreadyOpened p = false) (hn : env.newMasterNotation = some m)
    (h1 : success env (firstLoad env m p).1 = false)
    (hc : (checkCanIgnoreError env (afterFirstLoad env s m p) (firstLoad env m p).1 p).1
      = true)
    (h2 : success env (secondLoad env m p).1 = true) :
    doOpenScore env s p =
      (make_ret env env.codes.Ok,
       openLoaded env
        ((checkCanIgnoreError env (afterFirstLoad env s m p) (firstLoad env m p).1 p).2.emit
          (Event.load p "" true (secondLoad env m p).1))
        (secondLoad env m p).2 p) := by
  simp only [firstLoad, afterFirstLoad, secondLoad] at h1 hc h2
  simp [doOpenScore, ho, hn, h1, hc, h2, openLoaded, afterFirstLoad, firstLoad, secondLoad]

/-- The state `checkCanIgnoreError` leaves: one dialog more in the trace. -/
theorem checkCanIgnoreError_state (env : Env) (s : State) (ret : Ret) (filePath : Path) :
    (checkCanIgnoreError env s ret filePath).2 = s.emit (openErrorDialog env ret filePath) := by
  rw [checkCanIgnoreError_eq]
  unfold openErrorDialog
  split <;> rfl

/-- The answer of `checkCanIgnoreError`. -/
theorem checkCanIgnoreError_result (env : Env) (s : State) (ret : Ret) (filePath : Path) :
    (checkCanIgnoreError env s ret filePath).1 =
      ((ignorableErrors env).contains ret.code && userIgnores env ret filePath) := by
  rw [checkCanIgnoreError_eq]
  split <;> simp_all

/-- The state the last lines of `doOpenScore` leave. -/
theorem openLoaded_eq (env : Env) (s : State) (m : MasterNotation) (p : Path) :
    openLoaded env s m p =
      { masterNotations :=
          if env.containsMasterNotation s.masterNotations p then s.masterNotations
          else s.masterNotations ++ [m]
        currentMasterNotation := some m
        recentScorePaths := if p = "" then s.recentScorePaths else p :: s.recentScorePaths.erase p
        needShowWarningAboutUnsavedScore := s.needShowWarningAboutUnsavedScore
        trace := s.trace ++ openLoadedEvents env s m p } := by
  by_cases hp : p = ""
  · subst hp
    by_cases hc : env.containsMasterNotation s.masterNotations "" = true <;>
      simp [openLoaded, openLoadedEvents, prependToRecentScoreList_empty, State.emit, hc]
  · by_cases hc : env.containsMasterNotation s.masterNotations p = true <;>
      simp [openLoaded, openLoadedEvents, prependToRecentScoreList_eq _ p hp, State.emit,
        hc, hp]

theorem loadCalls_openLoadedEvents (env : Env) (s : State) (m : MasterNotation) (p : Path) :
    loadCalls (openLoadedEvents env s m p) = [] := by
  unfold openLoadedEvents
  split <;> split <;> simp [loadCalls]

theorem loadCalls_openErrorDialog_cons (env : Env) (ret : Ret) (p : Path)
    (es : List Event) :
    loadCalls (openErrorDialog env ret p :: es) = loadCalls es := by
  unfold openErrorDialog
  split <;> rfl

/-- When `checkCanIgnoreError` answers true. -/
theorem checkCanIgnoreError_true_iff (env : Env) (s : State) (ret : Ret) (filePath : Path) :
    (checkCanIgnoreError env s ret filePath).1 = true ↔
      (ret.code ∈ ignorableErrors env ∧ userIgnores env ret filePath = true) := by
  rw [checkCanIgnoreError_result]
  simp

/-- The three outcomes of `doOpenScore` once a master notation is created, by
the first load, the answer of `checkCanIgnoreError` and the second load. -/
theorem doOpenScore_outcome (env : Env) (s : State) (p : Path) (m : MasterNotation)
    (ho : env.isScoreAlreadyOpened p = false) (hn : env.newMasterNotation = some m) :
    (success env (firstLoad env m p).1 = true →
      doOpenScore env s p = (make_ret env env.codes.Ok,
        openLoaded env (afterFirstLoad env s m p) (firstLoad env m p).2 p) ∧
      (doOpenScore env s p).2.trace = s.trace ++
        (Event.load p "" false (firstLoad env m p).1 ::
          openLoadedEvents env (afterFirstLoad env s m p) (firstLoad env m p).2 p)) ∧
    (success env (firstLoad env m p).1 = false →
      ¬ ((firstLoad env m p).1.code ∈ ignorableErrors env ∧
        userIgnores env (firstLoad env m p).1 p = true) →
      doOpenScore env s p = ((firstLoad env m p).1,
        { s with trace := s.trace ++ [Event.load p "" false (firstLoad env m p).1,
            openErrorDialog env (firstLoad env m p).1 p] })) ∧
    (success env (firstLoad env m p).1 = false →
      ((firstLoad env m p).1.code ∈ ignorableErrors env ∧
        userIgnores env (firstLoad env m p).1 p = true) →
      success env (secondLoad env m p).1 = false →
      doOpenScore env s p = ((secondLoad env m p).1,
        { s with trace := s.trace ++ [Event.load p "" false (firstLoad env m p).1,
            openErrorDialog env (firstLoad env m p).1 p,
            Event.load p "" true (secondLoad env m p).1] })) ∧
    (success env (firstLoad env m p).1 = false →
      ((firstLoad env m p).1.code ∈ ignorableErrors env ∧
        userIgnores env (firstLoad env m p).1 p = true) →
      success env (secondLoad env m p).1 = true →
      doOpenScore env s p = (make_ret env env.codes.Ok,
        openLoaded env
          { s with trace := s.trace ++ [Event.load p "" false (firstLoad env m p).1,
            openErrorDialog env (firstLoad env m p).1 p,
            Event.load p "" true (secondLoad env m p).1] }
          (secondLoad env m p).2 p) ∧
      (doOpenScore env s p).2.trace = s.trace ++
        (Event.load p "" false (firstLoad env m p).1 ::
          openErrorDialog env (firstLoad env m p).1 p ::
          Event.load p "" true (secondLoad env m p).1 ::
          openLoadedEvents env
            { s with trace := s.trace ++ [Event.load p "" false (firstLoad env m p).1,
              openErrorDialog env (firstLoad env m p).1 p,
              Event.load p "" true (secondLoad env m p).1] }
            (secondLoad env m p).2 p)) := by
  refine ⟨fun h1 => ?_, fun h1 hc => ?_, fun h1 hc h2 => ?_, fun h1 hc h2 => ?_⟩
  · rw [doOpenScore_firstOk env s p m ho hn h1]
    refine ⟨rfl, ?_⟩
    rw [openLoaded_eq]
    simp [afterFirstLoad, State.emit]
  · have hc1 : (checkCanIgnoreError env (afterFirstLoad env s m p)
        (firstLoad env m p).1 p).1 = false := by
      rw [← Bool.not_eq_true, checkCanIgnoreError_true_iff]
      exact hc
    rw [doOpenScore_firstFails env s p m ho hn h1 hc1, checkCanIgnoreError_state]
    simp [afterFirstLoad, State.emit]
  · have hc1 := (checkCanIgnoreError_true_iff env (afterFirstLoad env s m p)
        (firstLoad env m p).1 p).2 hc
    rw [doOpenScore_secondFails env s p m ho hn h1 hc1 h2, checkCanIgnoreError_state]
    simp [afterFirstLoad, State.emit]
  · have hc1 := (checkCanIgnoreError_true_iff env (afterFirstLoad env s m p)
        (firstLoad env m p).1 p).2 hc
    rw [doOpenScore_secondOk env s p m ho hn h1 hc1 h2, checkCanIgnoreError_state]
    have hst : ((afterFirstLoad env s m p).emit
        (openErrorDialog env (firstLoad env m p).1 p)).emit
        (Event.load p "" true (secondLoad env m p).1) =
        { s with trace := s.trace ++ [Event.load p "" false (firstLoad env m p).1,
            openErrorDialog env (firstLoad env m p).1 p,
            Event.load p "" true (secondLoad env m p).1] } := by
      simp [afterFirstLoad, State.emit]
    rw [hst]
    refine ⟨rfl, ?_⟩
    rw [openLoaded_eq]
    simp

/-- The `load` calls of `doOpenScore` once a master notation is created. -/
theorem doOpenScore_loadCalls (env : Env) (s : State) (p : Path) (m : MasterNotation)
    (ho : env.isScoreAlreadyOpened p = false) (hn : env.newMasterNotation = some m) :
    loadCalls (emitted s (doOpenScore env s p).2) =
      if success env (firstLoad env m p).1 = false ∧
          (firstLoad env m p).1.code ∈ ignorableErrors env ∧
          userIgnores env (firstLoad env m p).1 p = true then
        [(p, "", false, (firstLoad env m p).1), (p, "", true, (secondLoad env m p).1)]
      else [(p, "", false, (firstLoad env m p).1)] := by
  obtain ⟨o1, o2, o3, o4⟩ := doOpenScore_outcome env s p m ho hn
  by_cases h1 : success env (firstLoad env m p).1 = true
  · rw [emitted_of_trace _ _ _ (o1 h1).2]
    simp [loadCalls, loadCalls_openLoadedEvents, h1]
  · have h1f : success env (firstLoad env m p).1 = false := by simpa using h1
    by_cases hc : (firstLoad env m p).1.code ∈ ignorableErrors env ∧
        userIgnores env (firstLoad env m p).1 p = true
    · by_cases h2 : success env (secondLoad env m p).1 = true
      · rw [emitted_of_trace _ _ _ (o4 h1f hc h2).2]
        simp [loadCalls, loadCalls_openErrorDialog_cons, loadCalls_openLoadedEvents, h1f, hc]
      · have h2f : success env (secondLoad env m p).1 = false := by simpa using h2
        rw [o3 h1f hc h2f]
        simp [emitted, loadCalls, loadCalls_openErrorDialog_cons, h1f, hc]
    · rw [o2 h1f hc]
      have hc3 : ¬ (success env (firstLoad env m p).1 = false ∧
          (firstLoad env m p).1.code ∈ ignorableErrors env ∧
          userIgnores env (firstLoad env m p).1 p = true) := fun h => hc h.2
      rw [if_neg hc3]
      simp [emitted, loadCalls, loadCalls_openErrorDialog_cons]

/-- The value `doOpenScore` returns once a master notation is created. -/
theorem doOpenScore_ret (env : Env) (s : State) (p : Path) (m : MasterNotation)
    (ho : env.isScoreAlreadyOpened p = false) (hn : env.newMasterNotation = some m) :
    (doOpenScore env s p).1 =
      if success env (firstLoad env m p).1 = true then make_ret env env.codes.Ok
      else if (firstLoad env m p).1.code ∈ ignorableErrors env ∧
          userIgnores env (firstLoad env m p).1 p = true then
        (if success env (secondLoad env m p).1 = true then make_ret env env.codes.Ok
          else (secondLoad env m p).1)
      else (firstLoad env m p).1 := by
  obtain ⟨o1, o2, o3, o4⟩ := doOpenScore_outcome env s p m ho hn
  by_cases h1 : success env (firstLoad env m p).1 = true
  · rw [(o1 h1).1, if_pos h1]
  · have h1f : success env (firstLoad env m p).1 = false := by simpa using h1
    rw [if_neg h1]
    by_cases hc : (firstLoad env m p).1.code ∈ ignorableErrors env ∧
        userIgnores env (firstLoad env m p).1 p = true
    · rw [if_pos hc]
      by_cases h2 : success env (secondLoad env m p).1 = true
      · rw [(o4 h1f hc h2).1, if_pos h2]
      · have h2f : success env (secondLoad env m p).1 = false := by simpa using h2
        rw [o3 h1f hc h2f, if_neg h2]
    · rw [o2 h1f hc, if_neg hc]

/-- The result `make_ret(Ret::Code::Ok)` is a success. -/
theorem success_make_ret_Ok (env : Env) : success env (make_ret env env.codes.Ok) = true := by
  simp [success, make_ret]

theorem mem_ignorableErrors (env : Env) (c : Int) :
    c ∈ ignorableErrors env ↔
      (c = env.codes.FileTooOld ∨ c = env.codes.FileTooNew ∨
        c = env.codes.FileCorrupted ∨ c = env.codes.FileOld300Format) := by
  simp [ignorableErrors]

theorem openErrorDialog_isStateChange (env : Env) (ret : Ret) (p : Path) :
    (openErrorDialog env ret p).isStateChange = false := by
  unfold openErrorDialog
  split <;> rfl

/-! ## The paths through doSaveScore -/

/-- A failing save: the result is logged and nothing else happens. -/
theorem doSaveScore_fails (env : Env) (s : State) (p : Path) (mode : SaveMode)
    (m : MasterNotation) (hm : s.currentMasterNotation = some m)
    (hf : success env (env.save m p mode).1 = false) :
    doSaveScore env s p mode =
      some { s with
        currentMasterNotation := some (env.save m p mode).2
        trace := s.trace ++ [Event.save p mode (env.save m p mode).1,
          Event.logE (env.save m p mode).1] } := by
  simp [doSaveScore, hm, hf, State.emit]

/-- A successful save that changes the path in SaveAs mode: the notification
is sent, then the path is prepended to the recent-score list. -/
theorem doSaveScore_ok_notify (env : Env) (s : State) (p : Path) (mode : SaveMode)
    (m : MasterNotation) (hm : s.currentMasterNotation = some m)
    (hs : success env (env.save m p mode).1 = true)
    (hc : mode = SaveMode.SaveAs ∧ m.metaInfo.filePath ≠ p) :
    doSaveScore env s p mode =
      some (prependToRecentScoreList
        { s with
          currentMasterNotation := some (env.save m p mode).2
          trace := s.trace ++ [Event.save p mode (env.save m p mode).1,
            Event.currentMasterNotationChangedNotify] } p) := by
  obtain ⟨hc1, hc2⟩ := hc
  subst hc1
  simp [doSaveScore, hm, hs, State.emit, hc2]

/-- Any other successful save: the path is prepended to the recent-score
list. -/
theorem doSaveScore_ok_quiet (env : Env) (s : State) (p : Path) (mode : SaveMode)
    (m : MasterNotation) (hm : s.currentMasterNotation = some m)
    (hs : success env (env.save m p mode).1 = true)
    (hc : ¬ (mode = SaveMode.SaveAs ∧ m.metaInfo.filePath ≠ p)) :
    doSaveScore env s p mode =
      some (prependToRecentScoreList
        { s with
          currentMasterNotation := some (env.save m p mode).2
          trace := s.trace ++ [Event.save p mode (env.save m p mode).1] } p) := by
  have hb : (mode == SaveMode.SaveAs && m.metaInfo.filePath != p) = false := by
    rw [Bool.eq_false_iff]
    intro h
    apply hc
    simpa using h
  simp only [doSaveScore, hm, hs, State.emit, hb]
  simp

/-- The state `prependToRecentScoreList` leaves, for every path. -/
theorem prependToRecentScoreList_state (s : State) (p : Path) :
    prependToRecentScoreList s p =
      { s with
        recentScorePaths := if p = "" then s.recentScorePaths else p :: s.recentScorePaths.erase p
        trace := s.trace ++
          (if p = "" then []
            else [Event.setRecentScorePaths (p :: s.recentScorePaths.erase p),
              Event.addRecentFile p]) } := by
  by_cases hp : p = ""
  · subst hp
    simp [prependToRecentScoreList_empty]
  · simp [prependToRecentScoreList_eq s p hp, hp]

/-- The step of the recent-score list keeps it duplicate-free. -/
theorem nodup_prepend (l : List Path) (p : Path) (h : l.Nodup) :
    (if p = "" then l else p :: l.erase p).Nodup := by
  split
  · exact h
  · exact List.nodup_cons.2 ⟨fun hm => ((List.Nodup.mem_erase_iff h).1 hm).1 rfl, h.erase p⟩

/-- The method `doSaveScore` returns whenever there is a current master
notation. -/
theorem doSaveScore_isSome (env : Env) (s : State) (p : Path) (mode : SaveMode)
    (m : MasterNotation) (hm : s.currentMasterNotation = some m) :
    ∃ t, doSaveScore env s p mode = some t := by
  by_cases hs : success env (env.save m p mode).1 = true
  · by_cases hc : mode = SaveMode.SaveAs ∧ m.metaInfo.filePath ≠ p
    · exact ⟨_, doSaveScore_ok_notify env s p mode m hm hs hc⟩
    · exact ⟨_, doSaveScore_ok_quiet env s p mode m hm hs hc⟩
  · exact ⟨_, doSaveScore_fails env s p mode m hm (by simpa using hs)⟩

/-- The method `saveScore` returns whenever there is a current master
notation. -/
theorem saveScore_isSome (env : Env) (s : State) (m : MasterNotation)
    (hm : s.currentMasterNotation = some m) :
    ∃ t, saveScore env s = some t := by
  unfold saveScore
  rw [hm]
  simp only []
  split
  · exact doSaveScore_isSome env s _ _ m hm
  · split
    · exact ⟨_, rfl⟩
    · exact doSaveScore_isSome env _ _ _ m (by simp [selectScoreSavingFile, State.emit, hm])

/-- The recent-score list after `doSaveScore` has no duplicates if it had
none. -/
theorem doSaveScore_nodup (env : Env) (s t : State) (p : Path) (mode : SaveMode)
    (h : s.recentScorePaths.Nodup) (hs : doSaveScore env s p mode = some t) :
    t.recentScorePaths.Nodup := by
  cases hm : s.currentMasterNotation with
  | none => simp [doSaveScore, hm] at hs
  | some m =>
    by_cases hok : success env (env.save m p mode).1 = true
    · by_cases hc : mode = SaveMode.SaveAs ∧ m.metaInfo.filePath ≠ p
      · rw [doSaveScore_ok_notify env s p mode m hm hok hc] at hs
        injection hs with hs
        subst hs
        exact prependToRecentScoreList_nodup _ p h
      · rw [doSaveScore_ok_quiet env s p mode m hm hok hc] at hs
        injection hs with hs
        subst hs
        exact prependToRecentScoreList_nodup _ p h
    · rw [doSaveScore_fails env s p mode m hm (by simpa using hok)] at hs
      injection hs with hs
      subst hs
      exact h

/-- The recent-score list after `doOpenScore` has no duplicates if it had
none. -/
theorem doOpenScore_nodup (env : Env) (s : State) (p : Path)
    (h : s.recentScorePaths.Nodup) :
    (doOpenScore env s p).2.recentScorePaths.Nodup := by
  cases ho : env.isScoreAlreadyOpened p with
  | true =>
    rw [doOpenScore_alreadyOpened env s p ho]
    exact h
  | false =>
    cases hn : env.newMasterNotation with
    | none =>
      rw [doOpenScore_noMaster env s p ho hn]
      exact h
    | some m =>
      obtain ⟨o1, o2, o3, o4⟩ := doOpenScore_outcome env s p m ho hn
      by_cases h1 : success env (firstLoad env m p).1 = true
      · rw [(o1 h1).1, openLoaded_eq]
        exact nodup_prepend _ p h
      · have h1f : success env (firstLoad env m p).1 = false := by simpa using h1
        by_cases hc : (firstLoad env m p).1.code ∈ ignorableErrors env ∧
            userIgnores env (firstLoad env m p).1 p = true
        · by_cases h2 : success env (secondLoad env m p).1 = true
          · rw [(o4 h1f hc h2).1, openLoaded_eq]
            exact nodup_prepend _ p h
          · rw [o3 h1f hc (by simpa using h2)]
            exact h
        · rw [o2 h1f hc]
          exact h

/-! ## C1: checkCanIgnoreError -/

/-- C1: `checkCanIgnoreError(ret, filePath)` classifies by error code.  For a
code that is FileTooOld, FileTooNew, FileCorrupted or FileOld300Format it shows
one warning dialog whose buttons are exactly Cancel and Ignore, and returns
true if and only if the user chose Ignore.  For every other code it shows one
error dialog whose only button is Ok and returns false. -/
theorem checkCanIgnoreError_classifies (env : Env) (s : State) (ret : Ret)
    (filePath : Path) :
    ((ret.code = env.codes.FileTooOld ∨ ret.code = env.codes.FileTooNew ∨
        ret.code = env.codes.FileCorrupted ∨ ret.code = env.codes.FileOld300Format) →
      (checkCanIgnoreError env s ret filePath).2 =
        s.emit (Event.warningDialog (openErrorTitle env) (openErrorBody env ret filePath)
          [Button.Cancel, Button.Ignore] Button.Ignore [DialogOption.WithIcon]) ∧
      ((checkCanIgnoreError env s ret filePath).1 = true ↔
        (env.warning (openErrorTitle env) (openErrorBody env ret filePath)
          [Button.Cancel, Button.Ignore] Button.Ignore
          [DialogOption.WithIcon]).standartButton = Button.Ignore)) ∧
    (¬ (ret.code = env.codes.FileTooOld ∨ ret.code = env.codes.FileTooNew ∨
        ret.code = env.codes.FileCorrupted ∨ ret.code = env.codes.FileOld300Format) →
      (checkCanIgnoreError env s ret filePath).2 =
        s.emit (Event.errorDialog (openErrorTitle env) (openErrorBody env ret filePath)
          [Button.Ok] Button.Ok [DialogOption.WithIcon]) ∧
      (checkCanIgnoreError env s ret filePath).1 = false) := by
  constructor
  · intro h
    have hc : ret.code ∈ ignorableErrors env := by
      simpa [ignorableErrors] using h
    simp [checkCanIgnoreError, hc]
  · intro h
    have hc : ret.code ∉ ignorableErrors env := by
      simpa [ignorableErrors] using h
    simp [checkCanIgnoreError, hc]

/-- C1 at a concrete input: a FileTooNew result and a user who presses
Ignore. -/
theorem checkCanIgnoreError_classifies_witness :
    (checkCanIgnoreError (sampleEnv 2008 Button.Ignore none) sampleState
        { code := 2008, text := "too new" } "x.mscz").1 = true :=
  (((checkCanIgnoreError_classifies (sampleEnv 2008 Button.Ignore none) sampleState
      { code := 2008, text := "too new" } "x.mscz").1
      (Or.inr (Or.inl rfl))).2).2 rfl

/-! ## C4: init -/

/-- C4, as stated, fails: `init` registers "file-close", which is not one of
the eleven names of the specification. -/
theorem init_registers_file_close :
    "file-close" ∈ registeredNames (init []) ∧ "file-close" ∉ specCommandNames ∧
      ¬ (∀ name, name ∈ registeredNames (init []) ↔ name ∈ specCommandNames) := by
  refine ⟨by decide, by decide, fun h => ?_⟩
  exact absurd ((h "file-close").1 (by decide)) (by decide)

/-- C4, amended: the command names `init` registers are exactly twelve, the
eleven names of the specification and "file-close"; each is registered once,
and no other name is registered. -/
theorem init_registers_twelve (d : Dispatcher) :
    registeredNames (init d) = registeredNames d ++
      ["file-open", "file-new", "file-close", "file-save", "file-save-as",
       "file-save-a-copy", "file-save-selection", "file-save-online", "file-export",
       "file-import-pdf", "clear-recent", "continue-last-session"] ∧
    (registeredNames (init [])).Nodup ∧
    (registeredNames (init [])).length = 12 ∧
    (∀ name, name ∈ registeredNames (init []) ↔
      name = "file-close" ∨ name ∈ specCommandNames) := by
  refine ⟨by simp [init, Dispatcher.reg, registeredNames], by decide, by decide, ?_⟩
  intro name
  simp [init, Dispatcher.reg, registeredNames, specCommandNames]
  tauto

/-! ## C10: the file-open filter -/

/-- C10 at the failing input: "*.capx" and "*.ove" are patterns of
format-specific filters and are not among the whitespace-separated patterns of
the "All Supported Files" string, which holds "*.capx*.ove" as one pattern;
every other pattern of a format-specific filter is covered. -/
theorem allExt_misses_capx_and_ove :
    "*.capx" ∈ formatPatterns ∧ "*.capx" ∉ patterns allExt ∧
    "*.ove" ∈ formatPatterns ∧ "*.ove" ∉ patterns allExt ∧
    "*.capx*.ove" ∈ patterns allExt ∧
    (∀ pat ∈ formatPatterns, pat ≠ "*.capx" → pat ≠ "*.ove" → pat ∈ patterns allExt) := by
  decide

/-! ## C5: prependToRecentScoreList -/

/-- C5: `prependToRecentScoreList(p)` orders the recent-score list
most-recent-first.  For a non-empty path `p` and a stored list `L`, the list
stored afterwards is `p` followed by `L` with its first occurrence of `p`
removed, and it is written to the configuration and `p` to the platform list;
so `p` is at the front, the entries other than `p` keep their relative order,
and the length grows by one exactly when `p` was not in `L`.  For the empty
path the state is unchanged and nothing is written. -/
theorem prependToRecentScoreList_most_recent_first (s : State) (p : Path) :
    (p ≠ "" →
      (prependToRecentScoreList s p).recentScorePaths = p :: s.recentScorePaths.erase p ∧
      emitted s (prependToRecentScoreList s p) =
        [Event.setRecentScorePaths (p :: s.recentScorePaths.erase p),
         Event.addRecentFile p] ∧
      (prependToRecentScoreList s p).recentScorePaths.head? = some p ∧
      (prependToRecentScoreList s p).recentScorePaths.filter (fun q => q != p) =
        s.recentScorePaths.filter (fun q => q != p) ∧
      ((prependToRecentScoreList s p).recentScorePaths.length =
          s.recentScorePaths.length + 1 ↔ p ∉ s.recentScorePaths) ∧
      (p ∈ s.recentScorePaths →
        (prependToRecentScoreList s p).recentScorePaths.length =
          s.recentScorePaths.length)) ∧
    (p = "" →
      prependToRecentScoreList s p = s ∧ emitted s (prependToRecentScoreList s p) = []) := by
  constructor
  · intro hp
    rw [prependToRecentScoreList_eq s p hp]
    refine ⟨rfl, by simp [emitted], rfl, ?_, ?_, ?_⟩
    · simp [filter_ne_erase]
    · by_cases hm : p ∈ s.recentScorePaths
      · have hl := List.length_erase_of_mem hm
        have hpos := List.length_pos_of_mem hm
        simp only [List.length_cons, hl, hm, not_true_eq_false, iff_false]
        omega
      · simp [List.erase_of_not_mem hm, hm]
    · intro hm
      have hl := List.length_erase_of_mem hm
      have hpos := List.length_pos_of_mem hm
      simp only [List.length_cons, hl]
      omega
  · intro hp
    subst hp
    rw [prependToRecentScoreList_empty]
    exact ⟨rfl, emitted_self s⟩

/-- C5 at a concrete input: prepending "b.mscz" to the list a, b moves it to
the front. -/
theorem prependToRecentScoreList_most_recent_first_witness :
    (prependToRecentScoreList sampleState "b.mscz").recentScorePaths =
      ["b.mscz", "a.mscz"] :=
  ((prependToRecentScoreList_most_recent_first sampleState "b.mscz").1 (by decide)).1

/-! ## C2: the loads of doOpenScore -/

/-- C2, as stated, fails: for a score that is not opened in another instance,
`doOpenScore` calls `load` only if the notation creator returns a master
notation; when it returns the null pointer the guard after
`newMasterNotation()` returns InternalError and no `load` is called. -/
theorem doOpenScore_no_load_without_master :
    (sampleEnv 2008 Button.Ignore none).isScoreAlreadyOpened "x.mscz" = false ∧
    loadCalls (emitted sampleState
      (doOpenScore (sampleEnv 2008 Button.Ignore none) sampleState "x.mscz").2) = [] ∧
    (doOpenScore (sampleEnv 2008 Button.Ignore none) sampleState "x.mscz").1.code =
      sampleCodes.InternalError := by
  decide

/-- C2, amended: in `doOpenScore(filePath)`, for a score not already opened in
another instance and a notation creator that returns a master notation, `load`
is first called without force mode (and with the empty style path); `load` is
called a second time if and only if the first load failed with an ignorable
error code and the user chose Ignore; that second call has the same path, an
empty style path and force mode; and when it happens, `doOpenScore` succeeds
exactly when the second load succeeds. -/
theorem doOpenScore_load_sequence (env : Env) (s : State) (p : Path) (m : MasterNotation)
    (ho : env.isScoreAlreadyOpened p = false) (hn : env.newMasterNotation = some m) :
    (loadCalls (emitted s (doOpenScore env s p).2)).head? =
      some (p, "", false, (firstLoad env m p).1) ∧
    ((loadCalls (emitted s (doOpenScore env s p).2)).length = 2 ↔
      (success env (firstLoad env m p).1 = false ∧
        ((firstLoad env m p).1.code = env.codes.FileTooOld ∨
          (firstLoad env m p).1.code = env.codes.FileTooNew ∨
          (firstLoad env m p).1.code = env.codes.FileCorrupted ∨
          (firstLoad env m p).1.code = env.codes.FileOld300Format) ∧
        userIgnores env (firstLoad env m p).1 p = true)) ∧
    ((loadCalls (emitted s (doOpenScore env s p).2)).length ≠ 2 →
      loadCalls (emitted s (doOpenScore env s p).2) =
        [(p, "", false, (firstLoad env m p).1)]) ∧
    ((loadCalls (emitted s (doOpenScore env s p).2)).length = 2 →
      loadCalls (emitted s (doOpenScore env s p).2) =
        [(p, "", false, (firstLoad env m p).1), (p, "", true, (secondLoad env m p).1)] ∧
      success env (doOpenScore env s p).1 = success env (secondLoad env m p).1) := by
  rw [← mem_ignorableErrors, doOpenScore_loadCalls env s p m ho hn,
    doOpenScore_ret env s p m ho hn]
  by_cases hc : success env (firstLoad env m p).1 = false ∧
      (firstLoad env m p).1.code ∈ ignorableErrors env ∧
      userIgnores env (firstLoad env m p).1 p = true
  · have h1 : ¬ success env (firstLoad env m p).1 = true := by simp [hc.1]
    rw [if_pos hc, if_neg h1, if_pos hc.2]
    refine ⟨rfl, ⟨fun _ => hc, fun _ => rfl⟩, fun h => absurd rfl h, fun _ => ⟨rfl, ?_⟩⟩
    by_cases h2 : success env (secondLoad env m p).1 = true
    · rw [if_pos h2, success_make_ret_Ok, h2]
    · rw [if_neg h2]
  · rw [if_neg hc]
    refine ⟨rfl, ⟨fun h => by simp at h, fun h => absurd h hc⟩, fun _ => rfl,
      fun h => by simp at h⟩

/-- C2 (amended) at a concrete input: the first load fails with FileTooNew, the
user presses Ignore, and `load` is called twice. -/
theorem doOpenScore_load_sequence_witness :
    loadCalls (emitted sampleState
      (doOpenScore (sampleEnv 2008 Button.Ignore (some sampleMaster)) sampleState
        "x.mscz").2) =
      [("x.mscz", "", false, { code := 2008, text := "load" }),
       ("x.mscz", "", true, { code := 2008, text := "load" })] :=
  ((doOpenScore_load_sequence (sampleEnv 2008 Button.Ignore (some sampleMaster)) sampleState
    "x.mscz" sampleMaster rfl rfl).2.2.2 (by decide)).1

/-! ## C3: doOpenScore on failure -/

/-- C3: `doOpenScore` is atomic on failure.  If the last `load` performed (the
first one when the error is not ignored, otherwise the forced reload) returns
a failing `Ret`, then `doOpenScore` returns exactly that `Ret`, and nothing of
what the controller stores is changed: no master notation is added to the
global context, the current master notation is not replaced, the recent-score
list is not modified and the notation page is not opened. -/
theorem doOpenScore_atomic_on_failure (env : Env) (s : State) (p : Path)
    (q st : Path) (f : Bool) (r : Ret)
    (hl : (loadCalls (emitted s (doOpenScore env s p).2)).getLast? = some (q, st, f, r))
    (hf : success env r = false) :
    (doOpenScore env s p).1 = r ∧
    (doOpenScore env s p).2.masterNotations = s.masterNotations ∧
    (doOpenScore env s p).2.currentMasterNotation = s.currentMasterNotation ∧
    (doOpenScore env s p).2.recentScorePaths = s.recentScorePaths ∧
    (doOpenScore env s p).2.needShowWarningAboutUnsavedScore =
      s.needShowWarningAboutUnsavedScore ∧
    (∀ e ∈ emitted s (doOpenScore env s p).2, e.isStateChange = false) := by
  cases ho : env.isScoreAlreadyOpened p with
  | true =>
    rw [doOpenScore_alreadyOpened env s p ho] at hl
    simp [emitted, State.emit, loadCalls] at hl
  | false =>
    cases hn : env.newMasterNotation with
    | none =>
      rw [doOpenScore_noMaster env s p ho hn] at hl
      simp [emitted, State.emit, loadCalls] at hl
    | some m =>
      obtain ⟨o1, o2, o3, o4⟩ := doOpenScore_outcome env s p m ho hn
      rw [doOpenScore_loadCalls env s p m ho hn] at hl
      by_cases hc : success env (firstLoad env m p).1 = false ∧
          (firstLoad env m p).1.code ∈ ignorableErrors env ∧
          userIgnores env (firstLoad env m p).1 p = true
      · rw [if_pos hc] at hl
        simp at hl
        obtain ⟨-, -, -, hr⟩ := hl
        subst hr
        rw [o3 hc.1 hc.2 hf]
        simp [emitted, Event.isStateChange]
        exact openErrorDialog_isStateChange _ _ _
      · rw [if_neg hc] at hl
        simp at hl
        obtain ⟨-, -, -, hr⟩ := hl
        subst hr
        have hc2 : ¬ ((firstLoad env m p).1.code ∈ ignorableErrors env ∧
            userIgnores env (firstLoad env m p).1 p = true) := fun h => hc ⟨hf, h⟩
        rw [o2 hf hc2]
        simp [emitted, Event.isStateChange]
        exact openErrorDialog_isStateChange _ _ _

/-- C3 at a concrete input: the load fails with a code that cannot be ignored;
`doOpenScore` returns that result and the recent-score list is as before. -/
theorem doOpenScore_atomic_on_failure_witness :
    (doOpenScore (sampleEnv 5 Button.Ignore (some sampleMaster)) sampleState "x.mscz").1 =
      { code := 5, text := "load" } ∧
    (doOpenScore (sampleEnv 5 Button.Ignore (some sampleMaster)) sampleState
      "x.mscz").2.recentScorePaths = ["a.mscz", "b.mscz"] :=
  have h := doOpenScore_atomic_on_failure (sampleEnv 5 Button.Ignore (some sampleMaster))
    sampleState "x.mscz" "x.mscz" "" false { code := 5, text := "load" }
    (by decide) (by decide)
  ⟨h.1, h.2.2.2.1⟩

/-! ## C8: doSaveScore -/

/-- C8: `doSaveScore(filePath, saveMode)` updates bookkeeping only on success.
With a current master notation, the method returns; if `save` fails the
recent-score list is unchanged, nothing is written to it and no
current-master-notation-changed notification is sent; if `save` succeeds the
notification is sent if and only if the mode is SaveAs and `filePath` differs
from the file path the meta info held before the save, and a non-empty
`filePath` is moved to the front of the recent-score list, for every save
mode. -/
theorem doSaveScore_bookkeeping (env : Env) (s : State) (p : Path) (mode : SaveMode)
    (m : MasterNotation) (hm : s.currentMasterNotation = some m) :
    ∃ t, doSaveScore env s p mode = some t ∧
      (success env (env.save m p mode).1 = false →
        t.recentScorePaths = s.recentScorePaths ∧
        Event.currentMasterNotationChangedNotify ∉ emitted s t ∧
        (∀ e ∈ emitted s t, e.isRecentWrite = false)) ∧
      (success env (env.save m p mode).1 = true →
        (Event.currentMasterNotationChangedNotify ∈ emitted s t ↔
          (mode = SaveMode.SaveAs ∧ p ≠ m.metaInfo.filePath)) ∧
        (p ≠ "" →
          t.recentScorePaths = p :: s.recentScorePaths.erase p ∧
          Event.setRecentScorePaths (p :: s.recentScorePaths.erase p) ∈ emitted s t)) := by
  by_cases hs : success env (env.save m p mode).1 = true
  · by_cases hc : mode = SaveMode.SaveAs ∧ m.metaInfo.filePath ≠ p
    · refine ⟨_, doSaveScore_ok_notify env s p mode m hm hs hc, fun hf => ?_, fun _ => ?_⟩
      · rw [hs] at hf
        cases hf
      · rw [prependToRecentScoreList_state]
        refine ⟨?_, fun hp => ?_⟩
        · simp [emitted, hc.1, Ne.symm hc.2]
        · simp [emitted, hp]
    · refine ⟨_, doSaveScore_ok_quiet env s p mode m hm hs hc, fun hf => ?_, fun _ => ?_⟩
      · rw [hs] at hf
        cases hf
      · rw [prependToRecentScoreList_state]
        refine ⟨?_, fun hp => ?_⟩
        · have hc2 : ¬ (mode = SaveMode.SaveAs ∧ p ≠ m.metaInfo.filePath) :=
            fun h => hc ⟨h.1, Ne.symm h.2⟩
          simp only [emitted, List.drop_left, List.mem_append, List.mem_singleton,
            reduceCtorEq, false_or, hc2, iff_false]
          split <;> simp
        · simp [emitted, hp]
  · have hf : success env (env.save m p mode).1 = false := by simpa using hs
    refine ⟨_, doSaveScore_fails env s p mode m hm hf, fun _ => ?_, fun h => absurd h hs⟩
    simp [emitted, Event.isRecentWrite]

/-- C8 at a concrete input: a failing save leaves the recent-score list as it
was. -/
theorem doSaveScore_bookkeeping_witness :
    ∃ t, doSaveScore (sampleEnv 5 Button.Cancel none) sampleState "x.mscz"
        SaveMode.SaveAs = some t ∧
      t.recentScorePaths = ["a.mscz", "b.mscz"] :=
  have ⟨t, ht, hfail, _⟩ := doSaveScore_bookkeeping (sampleEnv 5 Button.Cancel none)
    sampleState "x.mscz" SaveMode.SaveAs sampleMaster rfl
  ⟨t, ht, (hfail (by decide)).1⟩

/-! ## C6: how failures are surfaced -/

/-- C6, as stated, fails on every path it names.  With the non-ignorable code
5: a failing `save` in `doSaveScore` is logged and no dialog is shown; a
failing first `load` in `doOpenScore` is shown in an error dialog and nothing
is logged; and a failing forced reload in `doOpenScore` (after a first load
that failed with FileTooNew and a user who pressed Ignore) is returned to the
caller with no dialog for it and nothing logged: the only dialog in the trace
is the warning about the first load. -/
theorem failure_not_both_shown_and_logged :
    (5 : Int) ∉ ignorableErrors (sampleEnv 5 Button.Cancel (some sampleMaster)) ∧
    (doSaveScore (sampleEnv 5 Button.Cancel (some sampleMaster)) sampleState "x.mscz"
        SaveMode.Save).map (emitted sampleState) =
      some [Event.save "x.mscz" SaveMode.Save { code := 5, text := "save" },
        Event.logE { code := 5, text := "save" }] ∧
    emitted sampleState
        (doOpenScore (sampleEnv 5 Button.Cancel (some sampleMaster)) sampleState "x.mscz").2 =
      [Event.load "x.mscz" "" false { code := 5, text := "load" },
        Event.errorDialog "Open Error" "Cannot open file %1:\n%2x.msczload"
          [Button.Ok] Button.Ok [DialogOption.WithIcon]] ∧
    (5 : Int) ∉ ignorableErrors sampleReloadEnv ∧
    doOpenScore sampleReloadEnv sampleState "x.mscz" =
      ({ code := 5, text := "forced" },
       { sampleState with
         trace :=
          [Event.load "x.mscz" "" false { code := 2008, text := "load" },
           Event.warningDialog "Open Error" "Cannot open file %1:\n%2x.msczload"
            [Button.Cancel, Button.Ignore] Button.Ignore [DialogOption.WithIcon],
           Event.load "x.mscz" "" true { code := 5, text := "forced" }] }) := by
  decide

/-- C6, amended: a failing `Ret` with a non-ignorable code returned by the
first `load` of `doOpenScore` is surfaced as an error dialog with the single
button Ok, and the controller writes nothing to the log; a failing `Ret`
returned by `save` in `doSaveScore` or in `saveSelection` is written to the
error log, and no dialog is shown.  The amended statement makes no promise
for a failing forced reload of `doOpenScore`; the third part records what the
code does there: whatever its code, the failing `Ret` is returned to the
caller, the calls made are the first load, the warning about the first load
and the forced load, and so no dialog is shown for it and nothing is logged
(the path of the first load shows a dialog for such a `Ret`). -/
theorem failure_shown_or_logged (env : Env) (s : State) (p : Path) (mode : SaveMode)
    (m : MasterNotation) :
    (env.isScoreAlreadyOpened p = false → env.newMasterNotation = some m →
      success env (firstLoad env m p).1 = false →
      (firstLoad env m p).1.code ∉ ignorableErrors env →
      emitted s (doOpenScore env s p).2 =
        [Event.load p "" false (firstLoad env m p).1,
         Event.errorDialog (openErrorTitle env) (openErrorBody env (firstLoad env m p).1 p)
          [Button.Ok] Button.Ok [DialogOption.WithIcon]]) ∧
    (s.currentMasterNotation = some m →
      success env (env.save m p mode).1 = false →
      (doSaveScore env s p mode).map (emitted s) =
        some [Event.save p mode (env.save m p mode).1, Event.logE (env.save m p mode).1]) ∧
    (s.currentMasterNotation = some m →
      (selectScoreSavingFile env s (defaultSavingFilePath env m)
        (env.trc "userscores" "Save Selection")).1 = p →
      p ≠ "" →
      success env (env.save m p SaveMode.SaveSelection).1 = false →
      (saveSelection env s).map (emitted s) =
        some [Event.selectSavingFile (env.trc "userscores" "Save Selection")
            (defaultSavingFilePath env m) (env.tr "MuseScore File" ++ " (*.mscz)"),
          Event.save p SaveMode.SaveSelection (env.save m p SaveMode.SaveSelection).1,
          Event.logE (env.save m p SaveMode.SaveSelection).1]) ∧
    (env.isScoreAlreadyOpened p = false → env.newMasterNotation = some m →
      success env (firstLoad env m p).1 = false →
      (firstLoad env m p).1.code ∈ ignorableErrors env →
      userIgnores env (firstLoad env m p).1 p = true →
      success env (secondLoad env m p).1 = false →
      (doOpenScore env s p).1 = (secondLoad env m p).1 ∧
      emitted s (doOpenScore env s p).2 =
        [Event.load p "" false (firstLoad env m p).1,
         Event.warningDialog (openErrorTitle env)
          (openErrorBody env (firstLoad env m p).1 p)
          [Button.Cancel, Button.Ignore] Button.Ignore [DialogOption.WithIcon],
         Event.load p "" true (secondLoad env m p).1]) := by
  refine ⟨fun ho hn h1 hc => ?_, fun hm hf => ?_, fun hm hsel hp hf => ?_,
    fun ho hn h1 hc hu h2 => ?_⟩
  · have hc2 : ¬ ((firstLoad env m p).1.code ∈ ignorableErrors env ∧
        userIgnores env (firstLoad env m p).1 p = true) := fun h => hc h.1
    rw [(doOpenScore_outcome env s p m ho hn).2.1 h1 hc2]
    have hd : openErrorDialog env (firstLoad env m p).1 p =
        Event.errorDialog (openErrorTitle env) (openErrorBody env (firstLoad env m p).1 p)
          [Button.Ok] Button.Ok [DialogOption.WithIcon] := by
      simp [openErrorDialog, hc]
    simp [emitted, hd]
  · rw [doSaveScore_fails env s p mode m hm hf]
    simp [emitted]
  · have he : p.isEmpty = false := by
      cases h : p.isEmpty with
      | false => rfl
      | true => exact absurd ((String.isEmpty_iff p).1 h) hp
    simp only [selectScoreSavingFile] at hsel
    simp [saveSelection, hm, selectScoreSavingFile, hsel, he, hf, State.emit, emitted]
  · rw [(doOpenScore_outcome env s p m ho hn).2.2.1 h1 ⟨hc, hu⟩ h2]
    have hd : openErrorDialog env (firstLoad env m p).1 p =
        Event.warningDialog (openErrorTitle env) (openErrorBody env (firstLoad env m p).1 p)
          [Button.Cancel, Button.Ignore] Button.Ignore [DialogOption.WithIcon] := by
      simp [openErrorDialog, hc]
    simp [emitted, hd]

/-- C6 (amended) at concrete inputs: a save that fails with code 5 is logged
and no dialog is shown; a forced reload that fails with code 5 is returned. -/
theorem failure_shown_or_logged_witness :
    (doSaveScore (sampleEnv 5 Button.Cancel none) sampleState "x.mscz" SaveMode.SaveCopy).map
        (emitted sampleState) =
      some [Event.save "x.mscz" SaveMode.SaveCopy { code := 5, text := "save" },
        Event.logE { code := 5, text := "save" }] ∧
    (doOpenScore sampleReloadEnv sampleState "x.mscz").1 = { code := 5, text := "forced" } :=
  ⟨(failure_shown_or_logged (sampleEnv 5 Button.Cancel none) sampleState "x.mscz"
      SaveMode.SaveCopy sampleMaster).2.1 rfl (by decide),
   ((failure_shown_or_logged sampleReloadEnv sampleState "x.mscz" SaveMode.Save
      sampleMaster).2.2.2 rfl rfl (by decide) (by decide) (by decide) (by decide)).1⟩

/-! ## C7: closeOpenedScore -/

/-- The answer and the state of `askAboutSavingScore`: the current master
notation is never touched, and with the warning disabled nothing happens. -/
theorem askAboutSavingScore_frame (env : Env) (s : State) (filePath : Path) :
    (askAboutSavingScore env s filePath).2.currentMasterNotation =
      s.currentMasterNotation ∧
    (s.needShowWarningAboutUnsavedScore = false →
      askAboutSavingScore env s filePath = (Button.DontSave, s)) := by
  cases h : s.needShowWarningAboutUnsavedScore <;>
    simp [askAboutSavingScore, h, State.emit]

/-- C7: `closeOpenedScore` returns false if and only if a score is open, it
needs saving and the save-confirmation answer is Cancel, and then the current
master notation is left as it was; in every other case it returns true and
afterwards there is no current master notation, also when the answer is Save,
whatever the save does.  When the unsaved-score warning is disabled the answer
is DontSave and no dialog is shown. -/
theorem closeOpenedScore_result (env : Env) (s : State) :
    ∃ b t, closeOpenedScore env s = some (b, t) ∧
      (b = false ↔ ∃ m, s.currentMasterNotation = some m ∧ m.needSave = true ∧
        (askAboutSavingScore env s m.path).1 = Button.Cancel) ∧
      (b = false → t.currentMasterNotation = s.currentMasterNotation) ∧
      (b = true → t.currentMasterNotation = none) ∧
      (s.needShowWarningAboutUnsavedScore = false →
        (∀ filePath, askAboutSavingScore env s filePath = (Button.DontSave, s)) ∧
        b = true ∧ ∀ e ∈ emitted s t, e.isDialog = false) := by
  cases hm : s.currentMasterNotation with
  | none =>
    refine ⟨true, s, by simp [closeOpenedScore, hm], by simp, by simp, fun _ => hm,
      fun hw => ⟨fun fp => (askAboutSavingScore_frame env s fp).2 hw, rfl, ?_⟩⟩
    simp [emitted_self]
  | some m =>
    cases hns : m.needSave with
    | false =>
      refine ⟨true, resetCurrentMasterNotation s, by simp [closeOpenedScore, hm, hns],
        by simp [hns], by simp, fun _ => rfl,
        fun hw => ⟨fun fp => (askAboutSavingScore_frame env s fp).2 hw, rfl, ?_⟩⟩
      simp [emitted, resetCurrentMasterNotation, State.emit, Event.isDialog]
    | true =>
      obtain ⟨hcur, hoff⟩ := askAboutSavingScore_frame env s m.path
      by_cases hb : (askAboutSavingScore env s m.path).1 = Button.Cancel
      · refine ⟨false, (askAboutSavingScore env s m.path).2,
          by simp [closeOpenedScore, hm, hns, hb], by simp [hns, hb],
          fun _ => by rw [hcur, hm], by simp, fun hw => ?_⟩
        rw [hoff hw] at hb
        cases hb
      · by_cases hsv : (askAboutSavingScore env s m.path).1 = Button.Save
        · obtain ⟨t, ht⟩ := saveScore_isSome env (askAboutSavingScore env s m.path).2 m
            (by rw [hcur, hm])
          refine ⟨true, resetCurrentMasterNotation t,
            by simp [closeOpenedScore, hm, hns, hsv, ht], by simp [hns, hb], by simp,
            fun _ => rfl, fun hw => ?_⟩
          rw [hoff hw] at hsv
          cases hsv
        · refine ⟨true, resetCurrentMasterNotation (askAboutSavingScore env s m.path).2,
            by simp [closeOpenedScore, hm, hns, hb, hsv], by simp [hns, hb], by simp,
            fun _ => rfl,
            fun hw => ⟨fun fp => (askAboutSavingScore_frame env s fp).2 hw, rfl, ?_⟩⟩
          rw [hoff hw]
          simp [emitted, resetCurrentMasterNotation, State.emit, Event.isDialog]

/-- C7 at a concrete input: the open score needs saving and the user presses
Cancel, so `closeOpenedScore` returns false and the score stays current. -/
theorem closeOpenedScore_result_witness :
    ∃ t, closeOpenedScore (sampleEnv 5 Button.Cancel none) sampleState = some (false, t) ∧
      t.currentMasterNotation = some sampleMaster :=
  have ⟨b, t, ht, hiff, hkeep, _⟩ :=
    closeOpenedScore_result (sampleEnv 5 Button.Cancel none) sampleState
  have hb : b = false := hiff.2 ⟨sampleMaster, rfl, rfl, rfl⟩
  ⟨t, hb ▸ ht, hkeep hb⟩

/-! ## C9: the recent-score list has no duplicates -/

/-- C9: the recent-score list never gains duplicates.  If the stored list has
no repeated path, it has none after `prependToRecentScoreList(p)` for any
path `p`, and none after `clearRecentScores`; so every list reachable from the
empty list through `doOpenScore`, `doSaveScore` and `clearRecentScores` is
duplicate-free; and prepending the same path twice in a row stores the same
list as prepending it once. -/
theorem recentScorePaths_nodup :
    (∀ (s : State) (p : Path), s.recentScorePaths.Nodup →
      (prependToRecentScoreList s p).recentScorePaths.Nodup) ∧
    (∀ s : State, s.recentScorePaths.Nodup → (clearRecentScores s).recentScorePaths.Nodup) ∧
    (∀ s : State, Reachable s → s.recentScorePaths.Nodup) ∧
    (∀ (s : State) (p : Path),
      (prependToRecentScoreList (prependToRecentScoreList s p) p).recentScorePaths =
        (prependToRecentScoreList s p).recentScorePaths) := by
  refine ⟨prependToRecentScoreList_nodup, fun s _ => ?_, fun s hr => ?_, fun s p => ?_⟩
  · simp [clearRecentScores, State.emit]
  · induction hr with
    | start s h => rw [h]; exact List.nodup_nil
    | openScore env s p _ ih => exact doOpenScore_nodup env s p ih
    | saveScore env s t p mode _ hs ih => exact doSaveScore_nodup env s t p mode ih hs
    | clear s _ _ => simp [clearRecentScores, State.emit]
  · by_cases hp : p = ""
    · subst hp
      simp [prependToRecentScoreList_empty]
    · simp [prependToRecentScoreList_paths, hp]

/-- C9 at a concrete input: after prepending a path that is already in the
list a, b, the stored list is still duplicate-free. -/
theorem recentScorePaths_nodup_witness :
    (prependToRecentScoreList sampleState "b.mscz").recentScorePaths.Nodup :=
  recentScorePaths_nodup.1 sampleState "b.mscz" (by decide)

end FileScoreController
